import Mathlib

/-!
Verification of `pyswarms/utils/plotters/plotters.py` (dannerph/pyswarms).

The module is shallowly embedded: numpy arrays become `List`s over `ℚ`,
Python exceptions become an explicit `PyErr` error type, and the logging of
warnings becomes an accumulated `List String`.  Python list / numpy fancy
indexing (including negative indices) is modelled by `pyIdx` / `pyGet`.
CPython's `is` comparison on `int` objects (used by the source in several
dimension checks) is modelled by `intIs`: two separately created ints are
the same object exactly when they are equal and lie in CPython's small-int
cache `-5 .. 256`.

Scope notes for fields that the claims never touch: purely cosmetic
matplotlib parameters (figure size, font sizes, colormap, contour levels,
alpha, and the `Animator` interval/repeat settings) are omitted from the
`Designer` / `Mesher` records, since they are passed through to matplotlib
unchanged and no claim mentions them.  The `Designer` and `Mesher` classes
themselves live in `formatters.py` (outside the given sources); only the
attributes that `plotters.py` reads are modelled, as plain record fields.
-/

namespace PyPlotters

/-- Python exceptions that the embedded code can raise. -/
inductive PyErr
  | indexError
  | typeError
  | valueError
deriving DecidableEq, Repr

/-- Resolve a Python/numpy index `i` against a container of length `n`:
nonnegative indices must be `< n`, negative indices count from the end. -/
def pyIdx (n : ℕ) (i : ℤ) : Option ℕ :=
  if 0 ≤ i then
    if i < (n : ℤ) then some i.toNat else none
  else
    if 0 ≤ (n : ℤ) + i then some ((n : ℤ) + i).toNat else none

/-- Python list indexing `l[i]` (supports negative indices). -/
def pyGet {α : Type} (l : List α) (i : ℤ) : Option α :=
  (pyIdx l.length i).bind l.get?

/-- CPython identity (`is`) on two separately created `int` objects: they are
the same object exactly when they are equal and cached (range `-5 .. 256`). -/
def intIs (a b : ℤ) : Bool :=
  decide (a = b ∧ -5 ≤ a ∧ a ≤ 256)

/-- Number of elements of `np.arange(a, b, d)`: `max 0 ⌈(b - a) / d⌉`
(`d = 0` raises in numpy; it is never used here since `Mesher.delta ≠ 0`
in every call we verify, so we return the empty count). -/
def arangeLen (a b d : ℚ) : ℕ :=
  if d = 0 then 0 else (max 0 ⌈(b - a) / d⌉).toNat

/-- `np.arange(a, b, d)`: the list `a, a + d, a + 2 * d, ...` of `arangeLen`
elements. -/
def arange (a b d : ℚ) : List ℚ :=
  (List.range (arangeLen a b d)).map (fun i => a + (Nat.cast i : ℚ) * d)

/-- First component `xx` of `np.meshgrid(x, y)`: row `j` is `x`. -/
def meshXX (x y : List ℚ) : List (List ℚ) :=
  y.map (fun _ => x)

/-- Second component `yy` of `np.meshgrid(x, y)`: row `j` is constantly
`y j`. -/
def meshYY (x y : List ℚ) : List (List ℚ) :=
  y.map (fun b => x.map (fun _ => b))

/-- `np.vstack([xx.reshape(-1), yy.reshape(-1)]).T` for the meshgrid of
`x` and `y`: the row-major list of grid points `(x i, y j)`. -/
def gridPairs (x y : List ℚ) : List (ℚ × ℚ) :=
  (y.map (fun b => x.map (fun a => (a, b)))).flatten

/-- Chunk sizes used by `np.array_split` on `l` elements and `n` chunks:
the first `l % n` chunks have `l / n + 1` elements, the rest `l / n`. -/
def splitSizes (l n : ℕ) : List ℕ :=
  (List.range n).map (fun k => l / n + if k < l % n then 1 else 0)

/-- Cut a list into consecutive chunks of the given sizes. -/
def chunksBySizes {α : Type} : List ℕ → List α → List (List α)
  | [], _ => []
  | s :: ss, xs => xs.take s :: chunksBySizes ss (xs.drop s)

/-- `np.array_split(xs, n)`. -/
def arraySplit {α : Type} (xs : List α) (n : ℕ) : List (List α) :=
  chunksBySizes (splitSizes xs.length n) xs

/-- Collapse a row of Python object cells to numbers; `none` cells (the
`None` object) have no numeric value. -/
def allSome : List (Option ℚ) → Option (List ℚ)
  | [] => some []
  | none :: _ => none
  | some a :: l => (allSome l).map (fun r => a :: r)

/-- `z.reshape(r, c)` for a flat list `z` of length `r * c` (the caller
checks the length; out-of-range defaults are never hit under that check). -/
def reshape2 (z : List ℚ) (r c : ℕ) : List (List ℚ) :=
  (List.range r).map (fun j => (List.range c).map (fun i => z.getD (j * c + i) 0))

/-- The attributes of `pyswarms.utils.plotters.formatters.Mesher` that
`plotters.py` reads: axis limits, grid step, and the objective function
(mapping the matrix of evaluation points to the vector of values). -/
structure Mesher where
  limits : List (ℚ × ℚ)
  delta : ℚ
  func : List (List ℚ) → List ℚ

/-- `_mesh(mesher, n_processes, x_index, y_index, best_pos)`: build the
grid from `mesher.limits[x_index]` / `mesher.limits[y_index]` with step
`mesher.delta`; when `x_index != 0 or y_index != 1 or best_pos is not None`,
tile `best_pos` (`np.tile(None, (k, 1))` gives a single-column object array
when `best_pos` is `None`) and overwrite columns `x_index` and `y_index`
with the grid coordinates; evaluate `mesher.func` either directly or via
`pool.map` over `np.array_split(xypairs, n_processes)` followed by
`np.concatenate`; finally `z.reshape(xx.shape)`. -/
def _mesh (m : Mesher) (n_processes : Option ℕ) (x_index y_index : ℤ)
    (best_pos : Option (List ℚ)) :
    Except PyErr (List (List ℚ) × List (List ℚ) × List (List ℚ)) := do
  let xlim ← match pyGet m.limits x_index with
    | some v => Except.ok v
    | none => Except.error PyErr.indexError
  let ylim ← match pyGet m.limits y_index with
    | some v => Except.ok v
    | none => Except.error PyErr.indexError
  let xs := arange xlim.1 xlim.2 m.delta
  let ys := arange ylim.1 ylim.2 m.delta
  let xx := meshXX xs ys
  let yy := meshYY xs ys
  let pairs := gridPairs xs ys
  let rows : List (List ℚ) ←
    if x_index ≠ 0 ∨ y_index ≠ 1 ∨ best_pos.isSome then do
      let base : List (Option ℚ) := match best_pos with
        | none => [none]
        | some bp => bp.map some
      let kx ← match pyIdx base.length x_index with
        | some v => Except.ok v
        | none => Except.error PyErr.indexError
      let ky ← match pyIdx base.length y_index with
        | some v => Except.ok v
        | none => Except.error PyErr.indexError
      match (pairs.map (fun p => (base.set kx (some p.1)).set ky (some p.2))).mapM allSome with
        | some v => Except.ok v
        | none => Except.error PyErr.typeError
    else
      Except.ok (pairs.map (fun p => [p.1, p.2]))
  let z : List ℚ ← match n_processes with
    | none => Except.ok (m.func rows)
    | some n =>
        if n = 0 then Except.error PyErr.valueError
        else Except.ok (((arraySplit rows n).map m.func).flatten)
  if z.length = ys.length * xs.length then
    Except.ok (xx, yy, reshape2 z ys.length xs.length)
  else
    Except.error PyErr.valueError

/-- The evaluation point that the multi-dimension branch of `_mesh` builds
for the grid coordinates `(a, b)`: `best_pos` with the column at `x_index`
replaced by `a` and the column at `y_index` replaced by `b` (the plain pair
`[a, b]` when `best_pos` is absent, as in the default branch). -/
def meshRowSpec (x_index y_index : ℤ) (best_pos : Option (List ℚ)) (a b : ℚ) : List ℚ :=
  match best_pos with
  | none => [a, b]
  | some bp => (bp.set ((pyIdx bp.length x_index).getD 0) a).set ((pyIdx bp.length y_index).getD 0) b

/-- Result carrier for the plotting procedures: the warnings logged so far
(the `rep.logger.warn` calls that executed before returning or raising)
paired with either the produced value or the uncaught Python exception.
The source's `except TypeError: ...; raise` re-raises, so every exception
simply propagates. -/
abbrev WE (α : Type) : Type := List String × Except PyErr α

/-- Return a value with no warning logged. -/
def wpure {α : Type} (a : α) : WE α := ([], Except.ok a)

/-- Sequence two steps, accumulating logged warnings; once an exception is
raised, later steps (and their warnings) never run. -/
def wbind {α β : Type} (p : WE α) (k : α → WE β) : WE β :=
  match p with
  | (w, Except.error e) => (w, Except.error e)
  | (w, Except.ok a) => (w ++ (k a).1, (k a).2)

/-- `rep.logger.warn(m)`. -/
def logWarn (m : String) : WE Unit := ([m], Except.ok ())

/-- Conditionally log a warning. -/
def warnIf (c : Bool) (m : String) : WE Unit :=
  (if c then [m] else [], Except.ok ())

/-- Lift an optional lookup, raising the given exception on `none`. -/
def liftO {α : Type} (e : PyErr) : Option α → WE α
  | none => ([], Except.error e)
  | some a => ([], Except.ok a)

/-- Lift an exception-carrying computation (no warnings). -/
def liftE {α : Type} (x : Except PyErr α) : WE α := ([], x)

def msg2D : String := "Given pos_history has too less dimensions to be plotted in 2D."

def msg3D : String := "Given pos_history has too less dimensions to be plotted in 3D."

def msgLimitsDesigner : String := "Limits in designer has incorrect dimensions."

def msgLabelsDesigner : String := "Labels in designer has incorrect dimensions."

def msgXOut : String := "Index of dimension to plot on x-axis out of bound."

def msgYOut : String := "Index of dimension to plot on y-axis out of bound."

def msgSameIdx : String := "Index for plotting x- and y-axis is the same, that is probably not what you want."

def msgLimitsMesher : String := "Limits in mesher has incorrect dimensions."

def msgMarkShort : String := "Given mark has too less values to be plotted."

def msgMarkDims : String := "Number of dimensions of given mark does not fit plotting dimension nor problem dimension."

/-- The attributes of `pyswarms.utils.plotters.formatters.Designer` that
`plotters.py` reads for the claims at hand: axis limits and axis labels. -/
structure Designer where
  limits : List (ℚ × ℚ)
  label : List String

/-- The default designer built by `plot_contour` when none is supplied. -/
def defaultContourDesigner : Designer :=
  { limits := [(-1, 1), (-1, 1)], label := ["x-axis", "y-axis"] }

/-- The default designer built by `plot_surface` when none is supplied. -/
def defaultSurfaceDesigner : Designer :=
  { limits := [(-1, 1), (-1, 1), (-1, 1)], label := ["x-axis", "y-axis", "z-axis"] }

/-- Observable output of `plot_contour`: the axis settings applied, the
contour data drawn (if a mesher was given), the mark scattered (if any),
and the animation (its frame indices and, per frame, the particle
positions handed to `_animate`). -/
structure ContourOutput where
  xlabel : String
  ylabel : String
  xlim : ℚ × ℚ
  ylim : ℚ × ℚ
  contourData : Option (List (List ℚ) × List (List ℚ) × List (List ℚ))
  markPt : Option (ℚ × ℚ)
  frames : List ℕ
  frameData : List (List (List ℚ))
deriving DecidableEq, Repr

/-- Observable output of `plot_surface` (as `ContourOutput`, plus the
z-axis settings and a three-dimensional mark). -/
structure SurfaceOutput where
  xlabel : String
  ylabel : String
  zlabel : String
  xlim : ℚ × ℚ
  ylim : ℚ × ℚ
  zlim : ℚ × ℚ
  surfaceData : Option (List (List ℚ) × List (List ℚ) × List (List ℚ))
  markPt : Option (ℚ × ℚ × ℚ)
  frames : List ℕ
  frameData : List (List (List ℚ))
deriving DecidableEq, Repr

/-- `plot_contour(pos_history, ..., mark, designer, mesher, ...,
n_processes, x, y, best_pos)`.  `pos_history` has shape
`(iteration, n_particles, dimensions)`; `n_dim = pos_history[0].shape[1]`
(an empty history, or a first entry with no rows, raises `IndexError` at
that access).  The six input checks run first (warnings only), then the
axis labels and limits are set from `designer`, the optional mesher
contour and optional mark are drawn, the history is sliced to the columns
`[x, y]`, and the animation is built over `range(n_iters)`. -/
def plotContour (pos_history : List (List (List ℚ))) (mark : Option (List ℚ))
    (designer : Option Designer) (mesher : Option Mesher)
    (n_processes : Option ℕ) (x y : ℤ) (best_pos : Option (List ℚ)) :
    WE ContourOutput :=
  let d := designer.getD defaultContourDesigner
  wbind (liftO PyErr.indexError pos_history.head?) (fun firstIter =>
  wbind (liftO PyErr.indexError firstIter.head?) (fun firstRow =>
  let n_dim : ℤ := (firstRow.length : ℤ)
  wbind (warnIf (decide (n_dim < 2)) msg2D) (fun _ =>
  wbind (warnIf (!intIs (d.limits.length : ℤ) n_dim) msgLimitsDesigner) (fun _ =>
  wbind (warnIf (!intIs (d.label.length : ℤ) n_dim) msgLabelsDesigner) (fun _ =>
  wbind (warnIf (decide (x < 0 ∨ n_dim ≤ x)) msgXOut) (fun _ =>
  wbind (warnIf (decide (y < 0 ∨ n_dim ≤ y)) msgYOut) (fun _ =>
  wbind (warnIf (intIs x y) msgSameIdx) (fun _ =>
  wbind (liftO PyErr.indexError (pyGet d.label x)) (fun xlabel =>
  wbind (liftO PyErr.indexError (pyGet d.label y)) (fun ylabel =>
  wbind (liftO PyErr.indexError (pyGet d.limits x)) (fun xlim =>
  wbind (liftO PyErr.indexError (pyGet d.limits y)) (fun ylim =>
  wbind (match mesher with
    | none => wpure none
    | some m =>
        wbind (warnIf (!intIs (m.limits.length : ℤ) n_dim) msgLimitsMesher) (fun _ =>
        wbind (liftE (_mesh m n_processes x y best_pos)) (fun t =>
        wpure (some t)))) (fun contourData =>
  wbind (match mark with
    | none => wpure none
    | some mk =>
        if mk.length < 2 then
          wbind (logWarn msgMarkShort) (fun _ => wpure none)
        else if intIs (mk.length : ℤ) 2 then
          wpure (some (mk.getD 0 0, mk.getD 1 0))
        else if intIs (mk.length : ℤ) n_dim then
          wbind (liftO PyErr.indexError (pyGet mk x)) (fun mx =>
          wbind (liftO PyErr.indexError (pyGet mk y)) (fun my =>
          wpure (some (mx, my))))
        else
          wbind (logWarn msgMarkDims) (fun _ => wpure none)) (fun markPt =>
  wbind (liftO PyErr.indexError (pyIdx firstRow.length x)) (fun kx =>
  wbind (liftO PyErr.indexError (pyIdx firstRow.length y)) (fun ky =>
  wpure { xlabel := xlabel
        , ylabel := ylabel
        , xlim := xlim
        , ylim := ylim
        , contourData := contourData
        , markPt := markPt
        , frames := List.range pos_history.length
        , frameData := pos_history.map (fun it =>
            it.map (fun row => [row.getD kx 0, row.getD ky 0])) }))))))))))))))))

/-- `plot_surface(pos_history, ..., designer, mesher, ..., mark,
n_processes, x, y, best_pos)`.  Here the history carries the fitness as an
extra last column, so `n_dim = pos_history[0].shape[1] - 1`; the z axis is
labelled and limited with the entries of `designer` at index `n_dim`, and
the history is sliced to the columns `[x, y, shape[1] - 1]`. -/
def plotSurface (pos_history : List (List (List ℚ))) (mark : Option (List ℚ))
    (designer : Option Designer) (mesher : Option Mesher)
    (n_processes : Option ℕ) (x y : ℤ) (best_pos : Option (List ℚ)) :
    WE SurfaceOutput :=
  let d := designer.getD defaultSurfaceDesigner
  wbind (liftO PyErr.indexError pos_history.head?) (fun firstIter =>
  wbind (liftO PyErr.indexError firstIter.head?) (fun firstRow =>
  let n_dim : ℤ := (firstRow.length : ℤ) - 1
  wbind (warnIf (decide (n_dim < 2)) msg3D) (fun _ =>
  wbind (warnIf (!intIs (d.limits.length : ℤ) (n_dim + 1)) msgLimitsDesigner) (fun _ =>
  wbind (warnIf (!intIs (d.label.length : ℤ) (n_dim + 1)) msgLabelsDesigner) (fun _ =>
  wbind (warnIf (decide (x < 0 ∨ n_dim ≤ x)) msgXOut) (fun _ =>
  wbind (warnIf (decide (y < 0 ∨ n_dim ≤ y)) msgYOut) (fun _ =>
  wbind (warnIf (intIs x y) msgSameIdx) (fun _ =>
  wbind (liftO PyErr.indexError (pyGet d.label x)) (fun xlabel =>
  wbind (liftO PyErr.indexError (pyGet d.label y)) (fun ylabel =>
  wbind (liftO PyErr.indexError (pyGet d.label n_dim)) (fun zlabel =>
  wbind (liftO PyErr.indexError (pyGet d.limits x)) (fun xlim =>
  wbind (liftO PyErr.indexError (pyGet d.limits y)) (fun ylim =>
  wbind (liftO PyErr.indexError (pyGet d.limits n_dim)) (fun zlim =>
  wbind (match mesher with
    | none => wpure none
    | some m =>
        wbind (warnIf (!intIs (m.limits.length : ℤ) n_dim) msgLimitsMesher) (fun _ =>
        wbind (liftE (_mesh m n_processes x y best_pos)) (fun t =>
        wpure (some t)))) (fun surfaceData =>
  wbind (match mark with
    | none => wpure none
    | some mk =>
        if mk.length < 3 then
          wbind (logWarn msgMarkShort) (fun _ => wpure none)
        else if mk.length = 3 then
          wpure (some (mk.getD 0 0, mk.getD 1 0, mk.getD 2 0))
        else if (mk.length : ℤ) = n_dim + 1 then
          wbind (liftO PyErr.indexError (pyGet mk x)) (fun mx =>
          wbind (liftO PyErr.indexError (pyGet mk y)) (fun my =>
          wbind (liftO PyErr.indexError (pyGet mk n_dim)) (fun mz =>
          wpure (some (mx, my, mz)))))
        else
          wbind (logWarn msgMarkDims) (fun _ => wpure none)) (fun markPt =>
  wbind (liftO PyErr.indexError (pyIdx firstRow.length x)) (fun kx =>
  wbind (liftO PyErr.indexError (pyIdx firstRow.length y)) (fun ky =>
  wbind (liftO PyErr.indexError (pyIdx firstRow.length ((firstRow.length : ℤ) - 1))) (fun kz =>
  wpure { xlabel := xlabel
        , ylabel := ylabel
        , zlabel := zlabel
        , xlim := xlim
        , ylim := ylim
        , zlim := zlim
        , surfaceData := surfaceData
        , markPt := markPt
        , frames := List.range pos_history.length
        , frameData := pos_history.map (fun it =>
            it.map (fun row => [row.getD kx 0, row.getD ky 0, row.getD kz 0])) })))))))))))))))))))

/-- `_animate(i, data, plot)`: the positions put on the scatter plot for
frame `i` are `data[i]` (written via `set_offsets` in 2-D and, transposed,
via `_offsets3d` in 3-D; either way the displayed point set is `data[i]`). -/
def _animate (i : ℕ) (data : List (List (List ℚ))) : List (List ℚ) :=
  data.getD i []

/-- Observable output of `plot_cost_history`: the axes drawn on (an
identifier: the supplied axes or the freshly created one), the plotted
point sequence, and the axis labels applied. -/
structure CostOutput where
  ax : ℕ
  points : List (ℚ × ℚ)
  xlabel : String
  ylabel : String
deriving DecidableEq, Repr

/-- The default designer built by `plot_cost_history` when none is
supplied: `Designer(legend="Cost", label=["Iterations", "Cost"])` (its
`limits` attribute keeps the class default and is never read here). -/
def defaultCostDesigner : Designer :=
  { limits := [], label := ["Iterations", "Cost"] }

/-- `plot_cost_history(cost_history, ax, title, designer)`: plot
`np.arange(iters)` against `cost_history` (matplotlib pairs the two
sequences pointwise) on the supplied axes, or on a fresh axes
(`freshAx`) if none was supplied, label the axes with
`designer.label[0]` / `designer.label[1]`, and return the axes. -/
def plotCostHistory (cost_history : List ℚ) (ax : Option ℕ)
    (designer : Option Designer) (freshAx : ℕ) : Except PyErr CostOutput := do
  let iters := cost_history.length
  let d := designer.getD defaultCostDesigner
  let axUsed := match ax with
    | none => freshAx
    | some a => a
  let points := (arange 0 (iters : ℚ) 1).zip cost_history
  let xlabel ← match pyGet d.label 0 with
    | some v => Except.ok v
    | none => Except.error PyErr.indexError
  let ylabel ← match pyGet d.label 1 with
    | some v => Except.ok v
    | none => Except.error PyErr.indexError
  Except.ok { ax := axUsed, points := points, xlabel := xlabel, ylabel := ylabel }

/-- The matrix of evaluation points that `_mesh` hands to the objective
function, described point-wise: one `meshRowSpec` row per grid point, in
row-major grid order. -/
def meshRows (x_index y_index : ℤ) (best_pos : Option (List ℚ)) (xs ys : List ℚ) :
    List (List ℚ) :=
  (gridPairs xs ys).map (fun p => meshRowSpec x_index y_index best_pos p.1 p.2)

/-- Prefix a warning list onto a plotting-step result. -/
def prepend {α : Type} (w : List String) (q : WE α) : WE α :=
  (w ++ q.1, q.2)

/-- A plotting step whose only possible Python exception is `IndexError`. -/
def onlyIdxErr {α : Type} (p : WE α) : Prop :=
  ∀ e, p.2 = Except.error e → e = PyErr.indexError

/-- A designer with 257 limits and labels, matching a 257-dimensional
history: CPython interns only the ints `-5 .. 256`, so `len(...) is not
n_dim` is `True` here even though the lengths are equal. -/
def designer257 : Designer :=
  { limits := List.replicate 257 (-1, 1), label := List.replicate 257 "L" }

/-- Expected output of `plot_contour` on the one-iteration history
`[[[1, 2]]]` with default arguments. -/
def cOutWit : ContourOutput :=
  { xlabel := "x-axis", ylabel := "y-axis", xlim := (-1, 1), ylim := (-1, 1)
  , contourData := none, markPt := none, frames := [0], frameData := [[[1, 2]]] }

/-- Expected output of `plot_surface` on the one-iteration history
`[[[1, 2, 3]]]` with default arguments. -/
def sOutWit : SurfaceOutput :=
  { xlabel := "x-axis", ylabel := "y-axis", zlabel := "z-axis"
  , xlim := (-1, 1), ylim := (-1, 1), zlim := (-1, 1)
  , surfaceData := none, markPt := none, frames := [0], frameData := [[[1, 2, 3]]] }

/-- Concrete mesher used to exercise `_mesh` (objective: row sums). -/
def meshWit : Mesher :=
  { limits := [(0, 3), (0, 2)], delta := 1, func := fun rows => rows.map (fun r => r.sum) }

/-- Concrete mesher with a one-point grid (objective: first coordinate). -/
def meshTiny : Mesher :=
  { limits := [(0, 1), (0, 1)], delta := 1, func := fun rows => rows.map (fun r => r.getD 0 0) }

/-! ### Lemmas and theorems -/

theorem sum_range_map_add_ite (q m k : ℕ) :
    ((List.range k).map (fun j => q + if j < m then 1 else 0)).sum = k * q + min m k := by
  induction k with
  | zero => simp
  | succ k ih =>
    rw [List.range_succ, List.map_append, List.sum_append, ih, Nat.succ_mul]
    by_cases h : k < m
    · simp only [List.map_cons, List.map_nil, List.sum_cons, List.sum_nil, if_pos h]
      omega
    · simp only [List.map_cons, List.map_nil, List.sum_cons, List.sum_nil, if_neg h]
      omega

theorem splitSizes_sum (l n : ℕ) (hn : 1 ≤ n) : (splitSizes l n).sum = l := by
  unfold splitSizes
  rw [sum_range_map_add_ite]
  have h1 : l % n < n := Nat.mod_lt _ (by omega)
  have h2 := Nat.div_add_mod l n
  omega

theorem chunksBySizes_flatten {α : Type} (ss : List ℕ) (xs : List α) :
    (chunksBySizes ss xs).flatten = xs.take ss.sum := by
  induction ss generalizing xs with
  | nil => simp [chunksBySizes]
  | cons s ss ih =>
    simp only [chunksBySizes, List.flatten_cons, ih, List.sum_cons, List.take_add]

theorem flatten_arraySplit {α : Type} (xs : List α) (n : ℕ) (hn : 1 ≤ n) :
    (arraySplit xs n).flatten = xs := by
  unfold arraySplit
  rw [chunksBySizes_flatten, splitSizes_sum _ _ hn, List.take_length]

theorem chunked_map_flatten (f : List (List ℚ) → List ℚ) (g : List ℚ → ℚ)
    (hf : ∀ rows, f rows = rows.map g) (rows : List (List ℚ)) (n : ℕ) (hn : 1 ≤ n) :
    ((arraySplit rows n).map f).flatten = f rows := by
  have h1 : (arraySplit rows n).map f = (arraySplit rows n).map (fun c => c.map g) :=
    List.map_congr_left (fun c _ => hf c)
  rw [h1, ← List.map_flatten, flatten_arraySplit _ _ hn, hf]

/-- Claim C1: for a pure row-wise objective function and any positive
`n_processes`, the parallel evaluation in `_mesh` (split the grid rows into
chunks, map the objective over each chunk, concatenate in order) returns
exactly the sequential result: `_mesh` with `some n` processes equals
`_mesh` with `n_processes = None` on every input. -/
theorem mesh_parallel_eq_sequential (m : Mesher) (g : List ℚ → ℚ)
    (hf : ∀ rows, m.func rows = rows.map g) (n : ℕ) (hn : 1 ≤ n)
    (x_index y_index : ℤ) (best_pos : Option (List ℚ)) :
    _mesh m (some n) x_index y_index best_pos = _mesh m none x_index y_index best_pos := by
  unfold _mesh
  rcases hx : pyGet m.limits x_index with _ | xlim
  · simp only [hx, bind, Except.bind]
  rcases hy : pyGet m.limits y_index with _ | ylim
  · simp only [hx, hy, bind, Except.bind]
  simp only [hx, hy, bind, Except.bind]
  by_cases hb : (¬x_index = 0 ∨ ¬y_index = 1 ∨ best_pos.isSome = true)
  · simp only [if_pos hb]
    generalize (match best_pos with | none => ([none] : List (Option ℚ)) | some bp => List.map some bp) = base
    rcases hkx : pyIdx base.length x_index with _ | kx
    · simp only [hkx, bind, Except.bind]
    rcases hky : pyIdx base.length y_index with _ | ky
    · simp only [hkx, hky, bind, Except.bind]
    simp only [hkx, hky, bind, Except.bind]
    rcases hmm : (List.map (fun p => (base.set kx (some p.1)).set ky (some p.2))
        (gridPairs (arange xlim.1 xlim.2 m.delta) (arange ylim.1 ylim.2 m.delta))).mapM allSome with _ | rows
    · simp only [hmm, bind, Except.bind]
    simp only [hmm, bind, Except.bind]
    rw [if_neg (show ¬ n = 0 by omega)]
    rw [chunked_map_flatten m.func g hf _ n hn]
  · simp only [if_neg hb]
    rw [if_neg (show ¬ n = 0 by omega)]
    rw [chunked_map_flatten m.func g hf _ n hn]

/-- Witness for C1 at a concrete mesher, `n_processes = 2`. -/
theorem mesh_parallel_eq_sequential_witness :
    (∀ rows, meshWit.func rows = rows.map (fun r => r.sum)) ∧ 1 ≤ 2 ∧
    _mesh meshWit (some 2) 0 1 none = _mesh meshWit none 0 1 none :=
  ⟨fun rows => rfl, by decide,
    mesh_parallel_eq_sequential meshWit (fun r => r.sum) (fun rows => rfl) 2 (by decide) 0 1 none⟩

theorem allSome_map_some (l : List ℚ) : allSome (l.map some) = some l := by
  induction l with
  | nil => rfl
  | cons a l ih => simp [allSome, ih]

theorem allSome_set_set (bp : List ℚ) (kx ky : ℕ) (a b : ℚ) :
    allSome (((bp.map some).set kx (some a)).set ky (some b)) =
      some ((bp.set kx a).set ky b) := by
  rw [← List.map_set, ← List.map_set, allSome_map_some]

theorem mapM_allSome_rows (bp : List ℚ) (kx ky : ℕ) (pairs : List (ℚ × ℚ)) :
    (pairs.map (fun p => ((bp.map some).set kx (some p.1)).set ky (some p.2))).mapM allSome =
      some (pairs.map (fun p => (bp.set kx p.1).set ky p.2)) := by
  induction pairs with
  | nil => rfl
  | cons p ps ih =>
    simp only [List.map_cons, List.mapM_cons, allSome_set_set, ih]
    rfl

theorem mesh_eval_eq (m : Mesher) (np : Option ℕ) (x_index y_index : ℤ)
    (best_pos : Option (List ℚ)) (xlim ylim : ℚ × ℚ)
    (hx : pyGet m.limits x_index = some xlim)
    (hy : pyGet m.limits y_index = some ylim)
    (hbr : (x_index = 0 ∧ y_index = 1 ∧ best_pos = none) ∨
      (∃ bp, best_pos = some bp ∧
        (pyIdx bp.length x_index).isSome = true ∧ (pyIdx bp.length y_index).isSome = true)) :
    _mesh m np x_index y_index best_pos =
      (match np with
        | none => Except.ok (m.func (meshRows x_index y_index best_pos
            (arange xlim.1 xlim.2 m.delta) (arange ylim.1 ylim.2 m.delta)))
        | some n => if n = 0 then Except.error PyErr.valueError
            else Except.ok (((arraySplit (meshRows x_index y_index best_pos
              (arange xlim.1 xlim.2 m.delta) (arange ylim.1 ylim.2 m.delta)) n).map m.func).flatten)).bind
        (fun z => if z.length = (arange ylim.1 ylim.2 m.delta).length * (arange xlim.1 xlim.2 m.delta).length
          then Except.ok (meshXX (arange xlim.1 xlim.2 m.delta) (arange ylim.1 ylim.2 m.delta),
            meshYY (arange xlim.1 xlim.2 m.delta) (arange ylim.1 ylim.2 m.delta),
            reshape2 z (arange ylim.1 ylim.2 m.delta).length (arange xlim.1 xlim.2 m.delta).length)
          else Except.error PyErr.valueError) := by
  unfold _mesh
  simp only [hx, hy, bind, Except.bind]
  rcases hbr with ⟨h0, h1, hbp⟩ | ⟨bp, hbp, hkx, hky⟩
  · subst h0; subst h1; subst hbp
    rw [if_neg (by simp)]
    simp only [meshRows, meshRowSpec]
    rcases np with _ | n
    · simp only [Except.bind]
    · by_cases hn : n = 0 <;> simp [hn, Except.bind]
  · subst hbp
    rw [if_pos (by simp)]
    simp only [List.length_map]
    rcases hkx2 : pyIdx bp.length x_index with _ | kx
    · rw [hkx2] at hkx; simp at hkx
    rcases hky2 : pyIdx bp.length y_index with _ | ky
    · rw [hky2] at hky; simp at hky
    simp only [hkx2, hky2, mapM_allSome_rows, meshRows, meshRowSpec, Option.getD_some]
    rcases np with _ | n
    · simp only [Except.bind]
    · by_cases hn : n = 0 <;> simp [hn, Except.bind]

theorem gridPairs_length (xs ys : List ℚ) :
    (gridPairs xs ys).length = ys.length * xs.length := by
  induction ys with
  | nil => simp [gridPairs]
  | cons b ys ih =>
    simp only [gridPairs, List.map_cons, List.flatten_cons, List.length_append,
      List.length_map] at ih ⊢
    rw [ih, List.length_cons, Nat.succ_mul]
    omega

theorem gridPairs_getD (xs ys : List ℚ) (j i : ℕ) (hj : j < ys.length) (hi : i < xs.length) :
    (gridPairs xs ys).getD (j * xs.length + i) (0, 0) = (xs.getD i 0, ys.getD j 0) := by
  induction ys generalizing j with
  | nil => simp at hj
  | cons b ys ih =>
    rcases j with _ | j
    · rw [show gridPairs xs (b :: ys) = (xs.map fun a => (a, b)) ++ gridPairs xs ys from rfl]
      simp only [Nat.zero_mul, Nat.zero_add]
      rw [List.getD_append _ _ _ _ (by simpa using hi)]
      rw [List.getD_eq_getElem _ _ (by simpa using hi), List.getElem_map]
      rw [List.getD_eq_getElem _ _ hi]
      simp
    · rw [show gridPairs xs (b :: ys) = (xs.map fun a => (a, b)) ++ gridPairs xs ys from rfl]
      have harith : (j + 1) * xs.length + i = (xs.map fun a => (a, b)).length + (j * xs.length + i) := by
        simp only [List.length_map]
        rw [Nat.succ_mul]
        omega
      rw [harith, List.getD_append_right _ _ _ _ (by omega)]
      simp only [Nat.add_sub_cancel_left]
      rw [ih j (Nat.lt_of_succ_lt_succ hj)]
      simp [List.getD_cons_succ]

theorem idx_lt_mul (j i r c : ℕ) (hj : j < r) (hi : i < c) : j * c + i < r * c := by
  have h1 : j * c + i < (j + 1) * c := by rw [Nat.succ_mul]; omega
  have h2 : (j + 1) * c ≤ r * c := Nat.mul_le_mul_right c hj
  omega

theorem reshape2_length (z : List ℚ) (r c : ℕ) : (reshape2 z r c).length = r := by
  simp [reshape2]

theorem reshape2_row (z : List ℚ) (r c j : ℕ) (hj : j < r) :
    (reshape2 z r c).getD j [] = (List.range c).map (fun i => z.getD (j * c + i) 0) := by
  unfold reshape2
  rw [List.getD_eq_getElem _ _ (by simpa using hj), List.getElem_map, List.getElem_range]

theorem reshape2_entry (z : List ℚ) (r c j i : ℕ) (hj : j < r) (hi : i < c) :
    ((reshape2 z r c).getD j []).getD i 0 = z.getD (j * c + i) 0 := by
  rw [reshape2_row z r c j hj]
  rw [List.getD_eq_getElem _ _ (by simpa using hi), List.getElem_map, List.getElem_range]

theorem meshRows_length (x_index y_index : ℤ) (best_pos : Option (List ℚ)) (xs ys : List ℚ) :
    (meshRows x_index y_index best_pos xs ys).length = ys.length * xs.length := by
  simp [meshRows, gridPairs_length]

theorem meshRows_getD (x_index y_index : ℤ) (best_pos : Option (List ℚ)) (xs ys : List ℚ)
    (j i : ℕ) (hj : j < ys.length) (hi : i < xs.length) :
    (meshRows x_index y_index best_pos xs ys).getD (j * xs.length + i) [] =
      meshRowSpec x_index y_index best_pos (xs.getD i 0) (ys.getD j 0) := by
  have hb : j * xs.length + i < (gridPairs xs ys).length := by
    rw [gridPairs_length]; exact idx_lt_mul j i ys.length xs.length hj hi
  unfold meshRows
  rw [List.getD_eq_getElem _ _ (by simpa using hb), List.getElem_map]
  have := gridPairs_getD xs ys j i hj hi
  rw [List.getD_eq_getElem _ _ hb] at this
  rw [this]

/-- Claim C4: with in-range `x_index` and `y_index` (and, in the
multi-dimension branch, a `best_pos` in which both indices resolve to
distinct columns), `_mesh` with sequential evaluation returns a `zz` of the
meshgrid shape whose entry `zz[j][i]` is the objective value at the grid
point `(x_i, y_j)` -- the evaluation point `meshRowSpec` carrying `x_i` at
column `x_index`, `y_j` at column `y_index`, and every remaining hidden
coordinate from `best_pos`. -/
theorem mesh_grid_values (m : Mesher) (g : List ℚ → ℚ) (x_index y_index : ℤ)
    (best_pos : Option (List ℚ)) (xlim ylim : ℚ × ℚ)
    (hf : ∀ rows, m.func rows = rows.map g)
    (hx : pyGet m.limits x_index = some xlim)
    (hy : pyGet m.limits y_index = some ylim)
    (hbr : (x_index = 0 ∧ y_index = 1 ∧ best_pos = none) ∨
      (∃ bp kx ky, best_pos = some bp ∧ pyIdx bp.length x_index = some kx ∧
        pyIdx bp.length y_index = some ky ∧ kx ≠ ky)) :
    ∃ xx yy zz, _mesh m none x_index y_index best_pos = Except.ok (xx, yy, zz) ∧
      zz.length = (arange ylim.1 ylim.2 m.delta).length ∧
      ∀ j, j < (arange ylim.1 ylim.2 m.delta).length →
        (zz.getD j []).length = (arange xlim.1 xlim.2 m.delta).length ∧
        ∀ i, i < (arange xlim.1 xlim.2 m.delta).length →
          (zz.getD j []).getD i 0 =
            g (meshRowSpec x_index y_index best_pos
                ((arange xlim.1 xlim.2 m.delta).getD i 0)
                ((arange ylim.1 ylim.2 m.delta).getD j 0)) := by
  have hbr2 : (x_index = 0 ∧ y_index = 1 ∧ best_pos = none) ∨
      (∃ bp, best_pos = some bp ∧
        (pyIdx bp.length x_index).isSome = true ∧ (pyIdx bp.length y_index).isSome = true) := by
    rcases hbr with h | ⟨bp, kx, ky, hbp, hkx, hky, _⟩
    · exact Or.inl h
    · exact Or.inr ⟨bp, hbp, by simp [hkx], by simp [hky]⟩
  rw [mesh_eval_eq m none x_index y_index best_pos xlim ylim hx hy hbr2]
  set xs := arange xlim.1 xlim.2 m.delta with hxs
  set ys := arange ylim.1 ylim.2 m.delta with hys
  have hzlen : (m.func (meshRows x_index y_index best_pos xs ys)).length = ys.length * xs.length := by
    rw [hf, List.length_map, meshRows_length]
  simp only [Except.bind, hzlen, if_pos]
  refine ⟨_, _, _, rfl, ?_, ?_⟩
  · exact reshape2_length _ _ _
  · intro j hj
    refine ⟨by rw [reshape2_row _ _ _ _ hj]; simp, ?_⟩
    intro i hi
    rw [reshape2_entry _ _ _ _ _ hj hi]
    have hk : j * xs.length + i < (meshRows x_index y_index best_pos xs ys).length := by
      rw [meshRows_length]; exact idx_lt_mul j i ys.length xs.length hj hi
    rw [hf, List.getD_eq_getElem _ _ (by simpa using hk), List.getElem_map]
    rw [← List.getD_eq_getElem _ [] hk]
    rw [meshRows_getD _ _ _ _ _ _ _ hj hi]

theorem flatten_map_length_eq (f : List (List ℚ) → List ℚ)
    (hlen : ∀ rows, (f rows).length = rows.length) (L : List (List (List ℚ))) :
    ((L.map f).flatten).length = L.flatten.length := by
  induction L with
  | nil => rfl
  | cons c L ih => simp [hlen, ih]

/-- Claim C10: whenever the limits resolve at the chosen indices, the
evaluation points are well-formed, the objective returns one value per grid
point, and `n_processes` is absent or positive, `_mesh` succeeds and the
three returned arrays `xx`, `yy`, `zz` all have the same two-dimensional
shape `(len(arange(ylim, delta)), len(arange(xlim, delta)))`. -/
theorem mesh_shape_invariant (m : Mesher) (np : Option ℕ) (x_index y_index : ℤ)
    (best_pos : Option (List ℚ)) (xlim ylim : ℚ × ℚ)
    (hx : pyGet m.limits x_index = some xlim)
    (hy : pyGet m.limits y_index = some ylim)
    (hbr : (x_index = 0 ∧ y_index = 1 ∧ best_pos = none) ∨
      (∃ bp, best_pos = some bp ∧
        (pyIdx bp.length x_index).isSome = true ∧ (pyIdx bp.length y_index).isSome = true))
    (hlen : ∀ rows, (m.func rows).length = rows.length)
    (hnp : np = none ∨ ∃ k, np = some (k + 1)) :
    ∃ xx yy zz, _mesh m np x_index y_index best_pos = Except.ok (xx, yy, zz) ∧
      xx.length = (arange ylim.1 ylim.2 m.delta).length ∧
      yy.length = (arange ylim.1 ylim.2 m.delta).length ∧
      zz.length = (arange ylim.1 ylim.2 m.delta).length ∧
      (∀ row ∈ xx, row.length = (arange xlim.1 xlim.2 m.delta).length) ∧
      (∀ row ∈ yy, row.length = (arange xlim.1 xlim.2 m.delta).length) ∧
      (∀ row ∈ zz, row.length = (arange xlim.1 xlim.2 m.delta).length) := by
  rw [mesh_eval_eq m np x_index y_index best_pos xlim ylim hx hy hbr]
  set xs := arange xlim.1 xlim.2 m.delta with hxs
  set ys := arange ylim.1 ylim.2 m.delta with hys
  have hshape : ∀ z : List ℚ, z.length = ys.length * xs.length →
      ∃ xx yy zz, (if z.length = ys.length * xs.length
          then Except.ok (meshXX xs ys, meshYY xs ys, reshape2 z ys.length xs.length)
          else Except.error PyErr.valueError) = Except.ok (xx, yy, zz) ∧
        xx.length = ys.length ∧ yy.length = ys.length ∧ zz.length = ys.length ∧
        (∀ row ∈ xx, row.length = xs.length) ∧
        (∀ row ∈ yy, row.length = xs.length) ∧
        (∀ row ∈ zz, row.length = xs.length) := by
    intro z hz
    rw [if_pos hz]
    refine ⟨_, _, _, rfl, by simp [meshXX], by simp [meshYY], reshape2_length _ _ _, ?_, ?_, ?_⟩
    · intro row hrow
      simp only [meshXX, List.mem_map] at hrow
      rcases hrow with ⟨b, _, hb⟩
      rw [← hb]
    · intro row hrow
      simp only [meshYY, List.mem_map] at hrow
      rcases hrow with ⟨b, _, hb⟩
      rw [← hb]
      simp
    · intro row hrow
      simp only [reshape2, List.mem_map] at hrow
      rcases hrow with ⟨b, _, hb⟩
      rw [← hb]
      simp
  rcases hnp with hq | ⟨k, hq⟩
  · subst hq
    simp only [Except.bind]
    exact hshape _ (by rw [hlen, meshRows_length])
  · subst hq
    simp only [Except.bind, Nat.succ_ne_zero, if_false]
    refine hshape _ ?_
    rw [flatten_map_length_eq m.func hlen, flatten_arraySplit _ _ (by omega), meshRows_length]

theorem pyIdx_none_of_le (n : ℕ) (i : ℤ) (h0 : 0 ≤ i) (h : (n : ℤ) ≤ i) :
    pyIdx n i = none := by
  unfold pyIdx
  rw [if_pos h0, if_neg (by omega)]

theorem pyIdx_of_nonneg_lt (n : ℕ) (i : ℤ) (h0 : 0 ≤ i) (h : i < (n : ℤ)) :
    pyIdx n i = some i.toNat := by
  unfold pyIdx
  rw [if_pos h0, if_pos h]


/-- Claim C8 (amended): the multi-dimension branch of `_mesh` (taken
exactly when `x_index != 0` or `y_index != 1` or `best_pos` is not `None`)
is only well-defined when every used column index fits the tiled row width
(`len(best_pos)` for a given vector, and the single column of
`np.tile(None, (k, 1))` when `best_pos` is `None`): for nonnegative
indices, the call raises `IndexError` whenever that width is at most
`max(x_index, y_index)`; in particular `best_pos = None` with non-default
indices fails whenever `max(x_index, y_index) >= 1`, though not when both
indices are 0 (both assignments then hit the single tiled column). -/
theorem mesh_multibranch_index_error (m : Mesher) (np : Option ℕ) (x_index y_index : ℤ)
    (best_pos : Option (List ℚ)) (xlim ylim : ℚ × ℚ)
    (hx0 : 0 ≤ x_index) (hy0 : 0 ≤ y_index)
    (hx : pyGet m.limits x_index = some xlim)
    (hy : pyGet m.limits y_index = some ylim)
    (hcase : (best_pos = none ∧ (x_index ≠ 0 ∨ y_index ≠ 1) ∧ 1 ≤ max x_index y_index) ∨
      (∃ l, best_pos = some l ∧ (l.length : ℤ) ≤ max x_index y_index)) :
    _mesh m np x_index y_index best_pos = Except.error PyErr.indexError := by
  unfold _mesh
  simp only [hx, hy, bind, Except.bind]
  rcases hcase with ⟨hbp, hne, hmax⟩ | ⟨l, hbp, hlen⟩
  · subst hbp
    rw [if_pos (by tauto)]
    by_cases hx1 : 1 ≤ x_index
    · rw [show pyIdx ([none] : List (Option ℚ)).length x_index = none from
        pyIdx_none_of_le _ _ hx0 (by simp [List.length_singleton]; omega)]
    · have hx00 : x_index = 0 := by omega
      have hy1 : 1 ≤ y_index := by
        rcases le_max_iff.mp hmax with h | h <;> omega
      rw [show pyIdx ([none] : List (Option ℚ)).length x_index = some 0 from by
        rw [pyIdx_of_nonneg_lt _ _ hx0 (by simp [List.length_singleton]; omega)]
        simp [hx00]]
      rw [show pyIdx ([none] : List (Option ℚ)).length y_index = none from
        pyIdx_none_of_le _ _ hy0 (by simp [List.length_singleton]; omega)]
  · subst hbp
    rw [if_pos (by simp)]
    simp only [List.length_map]
    by_cases hxl : (l.length : ℤ) ≤ x_index
    · rw [pyIdx_none_of_le _ _ hx0 hxl]
    · have hyl : (l.length : ℤ) ≤ y_index := by
        rcases max_choice x_index y_index with h | h <;> omega
      rw [pyIdx_of_nonneg_lt _ _ hx0 (by omega)]
      rw [pyIdx_none_of_le _ _ hy0 hyl]

theorem arange_zero_one_one : arange 0 1 1 = [0] := by
  have h1 : arangeLen 0 1 1 = 1 := by unfold arangeLen; norm_num
  unfold arange
  rw [h1, show List.range 1 = [0] from rfl]
  show [(0 : ℚ) + (0 : ℕ) * 1] = [0]
  norm_num

/-- Claim C8 counterexample: `x_index = 0, y_index = 0` are non-default
indices (`y_index != 1` puts `_mesh` in the multi-dimension branch), yet
with `best_pos = None` the call has a perfectly defined result: both column
assignments hit the single column of the tiled array, and `_mesh` returns
the grid together with the objective of the (degenerate) parameter set. -/
theorem mesh_counterC8 :
    _mesh meshTiny none 0 0 none = Except.ok ([[0]], [[0]], [[0]]) := by
  unfold _mesh
  have hx : pyGet meshTiny.limits 0 = some ((0 : ℚ), (1 : ℚ)) := by decide
  rw [hx]
  simp only [bind, Except.bind]
  rw [if_pos (show (0:ℤ) ≠ 0 ∨ (0:ℤ) ≠ 1 ∨ (none : Option (List ℚ)).isSome = true by decide)]
  have hd : meshTiny.delta = 1 := rfl
  rw [hd]
  simp only [arange_zero_one_one]
  rfl

theorem mesh_grid_values_witness :
    (∀ rows, meshWit.func rows = rows.map (fun r => r.sum)) ∧
    pyGet meshWit.limits 0 = some (0, 3) ∧
    pyGet meshWit.limits 1 = some (0, 2) ∧
    (∃ xx yy zz, _mesh meshWit none 0 1 (some [5, 6, 7]) = Except.ok (xx, yy, zz) ∧
      zz.length = (arange 0 2 meshWit.delta).length ∧
      ∀ j, j < (arange 0 2 meshWit.delta).length →
        (zz.getD j []).length = (arange 0 3 meshWit.delta).length ∧
        ∀ i, i < (arange 0 3 meshWit.delta).length →
          (zz.getD j []).getD i 0 =
            ((meshRowSpec 0 1 (some [5, 6, 7])
                ((arange 0 3 meshWit.delta).getD i 0)
                ((arange 0 2 meshWit.delta).getD j 0)).sum)) :=
  ⟨fun rows => rfl, by decide, by decide,
    mesh_grid_values meshWit (fun r => r.sum) 0 1 (some [5, 6, 7]) (0, 3) (0, 2)
      (fun rows => rfl) (by decide) (by decide)
      (Or.inr ⟨[5, 6, 7], 0, 1, rfl, by decide, by decide, by decide⟩)⟩

theorem mesh_shape_invariant_witness :
    pyGet meshWit.limits 0 = some (0, 3) ∧
    pyGet meshWit.limits 1 = some (0, 2) ∧
    (∀ rows, (meshWit.func rows).length = rows.length) ∧
    (∃ xx yy zz, _mesh meshWit (some 1) 0 1 none = Except.ok (xx, yy, zz) ∧
      xx.length = (arange 0 2 meshWit.delta).length ∧
      yy.length = (arange 0 2 meshWit.delta).length ∧
      zz.length = (arange 0 2 meshWit.delta).length ∧
      (∀ row ∈ xx, row.length = (arange 0 3 meshWit.delta).length) ∧
      (∀ row ∈ yy, row.length = (arange 0 3 meshWit.delta).length) ∧
      (∀ row ∈ zz, row.length = (arange 0 3 meshWit.delta).length)) :=
  ⟨by decide, by decide, fun rows => by simp [meshWit],
    mesh_shape_invariant meshWit (some 1) 0 1 none (0, 3) (0, 2) (by decide) (by decide)
      (Or.inl ⟨rfl, rfl, rfl⟩) (fun rows => by simp [meshWit]) (Or.inr ⟨0, rfl⟩)⟩

theorem mesh_multibranch_index_error_witness :
    (0 : ℤ) ≤ 1 ∧ (0 : ℤ) ≤ 0 ∧
    pyGet meshTiny.limits 1 = some (0, 1) ∧
    pyGet meshTiny.limits 0 = some (0, 1) ∧
    _mesh meshTiny none 1 0 none = Except.error PyErr.indexError :=
  ⟨by decide, by decide, by decide, by decide,
    mesh_multibranch_index_error meshTiny none 1 0 none (0, 1) (0, 1)
      (by decide) (by decide) (by decide) (by decide)
      (Or.inl ⟨rfl, Or.inl (by decide), by decide⟩)⟩

theorem wbind_ok {α β : Type} (w : List String) (a : α) (k : α → WE β) :
    wbind (w, Except.ok a) k = (w ++ (k a).1, (k a).2) := rfl

theorem wbind_err {α β : Type} (w : List String) (e : PyErr) (k : α → WE β) :
    wbind (w, Except.error e) k = (w, Except.error e) := rfl

theorem liftO_some {α : Type} (e : PyErr) (a : α) : liftO e (some a) = ([], Except.ok a) := rfl

theorem liftO_none {α : Type} (e : PyErr) : liftO e (none : Option α) = ([], Except.error e) := rfl

/-- Claim C2 counterexample: on a 2-dimensional history with `x = 2`,
`plot_contour` logs the out-of-bound warning and then raises an uncaught
`IndexError` (at `designer.label[x]` and the numpy column slice), instead
of completing and returning the animation. -/
theorem plot_contour_oob_counter :
    msgXOut ∈ (plotContour [[[0, 1]]] none none none none 2 1 none).1 ∧
      (plotContour [[[0, 1]]] none none none none 2 1 none).2 =
        Except.error PyErr.indexError := by
  constructor
  · decide
  · rfl


theorem onlyIdxErr_wbind {α β : Type} (p : WE α) (k : α → WE β)
    (hp : onlyIdxErr p) (hk : ∀ a, onlyIdxErr (k a)) : onlyIdxErr (wbind p k) := by
  rcases p with ⟨w, pe⟩
  rcases pe with e | a
  · intro e2 h2
    rw [wbind_err] at h2
    simp only [] at h2
    apply hp e2
    simpa using h2
  · intro e2 h2
    rw [wbind_ok] at h2
    exact hk a e2 h2

theorem wbind_fails {α β : Type} (p : WE α) (k : α → WE β)
    (hp : onlyIdxErr p) (hk : ∀ a, (k a).2 = Except.error PyErr.indexError) :
    (wbind p k).2 = Except.error PyErr.indexError := by
  rcases p with ⟨w, pe⟩
  rcases pe with e | a
  · rw [wbind_err]
    exact congrArg Except.error (hp e rfl)
  · rw [wbind_ok]
    exact hk a

theorem onlyIdxErr_liftO {α : Type} (o : Option α) :
    onlyIdxErr (liftO PyErr.indexError o) := by
  rcases o with _ | a <;> intro e h
  · simpa [liftO] using h.symm
  · simp [liftO] at h

theorem onlyIdxErr_warnIf (c : Bool) (m : String) : onlyIdxErr (warnIf c m) := by
  intro e h
  simp [warnIf] at h

theorem onlyIdxErr_wpure {α : Type} (a : α) : onlyIdxErr (wpure a) := by
  intro e h
  simp [wpure] at h

theorem onlyIdxErr_logWarn (m : String) : onlyIdxErr (logWarn m) := by
  intro e h
  simp [logWarn] at h

theorem plot_contour_oob_err (ph : List (List (List ℚ))) (mark : Option (List ℚ))
    (dsOpt : Option Designer) (np : Option ℕ) (x y : ℤ) (bp : Option (List ℚ))
    (fi : List (List ℚ)) (fr : List ℚ)
    (hph : ph.head? = some fi) (hfi : fi.head? = some fr)
    (hxy : (fr.length : ℤ) ≤ x ∨ (fr.length : ℤ) ≤ y) :
    (plotContour ph mark dsOpt none np x y bp).2 = Except.error PyErr.indexError := by
  unfold plotContour
  simp only [hph, hfi, liftO_some, wbind_ok, List.nil_append]
  apply wbind_fails _ _ (onlyIdxErr_warnIf _ _); intro u1
  apply wbind_fails _ _ (onlyIdxErr_warnIf _ _); intro u2
  apply wbind_fails _ _ (onlyIdxErr_warnIf _ _); intro u3
  apply wbind_fails _ _ (onlyIdxErr_warnIf _ _); intro u4
  apply wbind_fails _ _ (onlyIdxErr_warnIf _ _); intro u5
  apply wbind_fails _ _ (onlyIdxErr_warnIf _ _); intro u6
  apply wbind_fails _ _ (onlyIdxErr_liftO _); intro xlabel
  apply wbind_fails _ _ (onlyIdxErr_liftO _); intro ylabel
  apply wbind_fails _ _ (onlyIdxErr_liftO _); intro xlim
  apply wbind_fails _ _ (onlyIdxErr_liftO _); intro ylim
  apply wbind_fails _ _ (onlyIdxErr_wpure _); intro contourData
  apply wbind_fails
  · rcases mark with _ | mk
    · exact onlyIdxErr_wpure _
    · by_cases h1 : mk.length < 2
      · simp only [if_pos h1]
        exact onlyIdxErr_wbind _ _ (onlyIdxErr_logWarn _) (fun _ => onlyIdxErr_wpure _)
      · simp only [if_neg h1]
        by_cases h2 : intIs (mk.length : ℤ) 2 = true
        · simp only [if_pos h2]
          exact onlyIdxErr_wpure _
        · simp only [if_neg h2]
          by_cases h3 : intIs (mk.length : ℤ) (fr.length : ℤ) = true
          · simp only [if_pos h3]
            exact onlyIdxErr_wbind _ _ (onlyIdxErr_liftO _) (fun mx =>
              onlyIdxErr_wbind _ _ (onlyIdxErr_liftO _) (fun my => onlyIdxErr_wpure _))
          · simp only [if_neg h3]
            exact onlyIdxErr_wbind _ _ (onlyIdxErr_logWarn _) (fun _ => onlyIdxErr_wpure _)
  · intro markPt
    have hx0 : (0 : ℤ) ≤ (fr.length : ℤ) := by positivity
    rcases hxy with hx2 | hy2
    · rw [pyIdx_none_of_le fr.length x (by omega) hx2, liftO_none, wbind_err]
    · apply wbind_fails _ _ (onlyIdxErr_liftO _); intro kx
      rw [pyIdx_none_of_le fr.length y (by omega) hy2, liftO_none, wbind_err]

theorem plot_contour_oob_warn_x (ph : List (List (List ℚ))) (mark : Option (List ℚ))
    (dsOpt : Option Designer) (np : Option ℕ) (x y : ℤ) (bp : Option (List ℚ))
    (fi : List (List ℚ)) (fr : List ℚ)
    (hph : ph.head? = some fi) (hfi : fi.head? = some fr)
    (hx2 : (fr.length : ℤ) ≤ x) :
    msgXOut ∈ (plotContour ph mark dsOpt none np x y bp).1 := by
  unfold plotContour
  simp [hph, hfi, liftO_some, wbind_ok, warnIf, hx2, List.mem_append]

theorem plot_contour_oob_warn_y (ph : List (List (List ℚ))) (mark : Option (List ℚ))
    (dsOpt : Option Designer) (np : Option ℕ) (x y : ℤ) (bp : Option (List ℚ))
    (fi : List (List ℚ)) (fr : List ℚ)
    (hph : ph.head? = some fi) (hfi : fi.head? = some fr)
    (hy2 : (fr.length : ℤ) ≤ y) :
    msgYOut ∈ (plotContour ph mark dsOpt none np x y bp).1 := by
  unfold plotContour
  simp [hph, hfi, liftO_some, wbind_ok, warnIf, hy2, List.mem_append]

/-- Claim C2 (amended): an out-of-range plotting index (`x >= n_dim` or
`y >= n_dim`) makes `plot_contour` log the corresponding out-of-bound
warning, but the call then fails with an uncaught `IndexError` (when the
index is used for the label/limit lookup, the mark, or the history slice)
rather than running to completion; with `mesher = None` the exception is
always `IndexError`. -/
theorem plot_contour_invalid_index (ph : List (List (List ℚ))) (mark : Option (List ℚ))
    (dsOpt : Option Designer) (np : Option ℕ) (x y : ℤ) (bp : Option (List ℚ))
    (fi : List (List ℚ)) (fr : List ℚ)
    (hph : ph.head? = some fi) (hfi : fi.head? = some fr)
    (hxy : (fr.length : ℤ) ≤ x ∨ (fr.length : ℤ) ≤ y) :
    ((fr.length : ℤ) ≤ x → msgXOut ∈ (plotContour ph mark dsOpt none np x y bp).1) ∧
    ((fr.length : ℤ) ≤ y → msgYOut ∈ (plotContour ph mark dsOpt none np x y bp).1) ∧
    (plotContour ph mark dsOpt none np x y bp).2 = Except.error PyErr.indexError :=
  ⟨fun hx2 => plot_contour_oob_warn_x ph mark dsOpt np x y bp fi fr hph hfi hx2,
   fun hy2 => plot_contour_oob_warn_y ph mark dsOpt np x y bp fi fr hph hfi hy2,
   plot_contour_oob_err ph mark dsOpt np x y bp fi fr hph hfi hxy⟩

/-- Witness for the amended C2 at a concrete call. -/
theorem plot_contour_invalid_index_witness :
    ([[[(0 : ℚ), 1]]].head? = some [[(0 : ℚ), 1]]) ∧
    ([[(0 : ℚ), 1]].head? = some [(0 : ℚ), 1]) ∧
    ((([(0 : ℚ), 1].length : ℤ) ≤ 2 ∨ (([(0 : ℚ), 1].length : ℤ) ≤ 1)) ∧
    ((([(0 : ℚ), 1].length : ℤ) ≤ 2 → msgXOut ∈ (plotContour [[[0, 1]]] none none none none 2 1 none).1) ∧
     ((([(0 : ℚ), 1].length : ℤ) ≤ 1 → msgYOut ∈ (plotContour [[[0, 1]]] none none none none 2 1 none).1)) ∧
     (plotContour [[[0, 1]]] none none none none 2 1 none).2 = Except.error PyErr.indexError)) :=
  ⟨rfl, rfl, Or.inl (by decide),
    plot_contour_invalid_index [[[0, 1]]] none none none 2 1 none [[(0 : ℚ), 1]] [(0 : ℚ), 1]
      rfl rfl (Or.inl (by decide))⟩

set_option maxRecDepth 8000 in
/-- Claim C3: the code compares `len(designer.limits)` and
`len(designer.label)` to `n_dim` with `is not`, i.e. CPython object
identity, not `!=`.  At the failing input (a 257-dimensional history and a
designer with exactly 257 limits and 257 labels), both lengths equal
`n_dim`, yet both warnings are emitted, because 257 is outside CPython's
small-int cache, so the claim that the warning fires exactly when
`len != n_dim`, for all `n_dim`, does not hold on the code. -/
theorem designer_dims_warning_despite_equal :
    (designer257.limits.length = 257 ∧
      ((([[List.replicate 257 (0 : ℚ)]].headD []).headD []).length = 257)) ∧
    msgLimitsDesigner ∈
      (plotContour [[List.replicate 257 (0 : ℚ)]] none (some designer257) none none 0 1 none).1 ∧
    msgLabelsDesigner ∈
      (plotContour [[List.replicate 257 (0 : ℚ)]] none (some designer257) none none 0 1 none).1 := by
  refine ⟨⟨by decide, by decide⟩, ?_, ?_⟩ <;> decide

theorem wbind_snd_ok_exists {α β : Type} {p : WE α} {k : α → WE β} {o : β}
    (h : (wbind p k).2 = Except.ok o) : ∃ a, p.2 = Except.ok a ∧ (k a).2 = Except.ok o := by
  rcases p with ⟨w, pe⟩
  rcases pe with e | a
  · rw [wbind_err] at h
    simp at h
  · rw [wbind_ok] at h
    exact ⟨a, rfl, h⟩

theorem liftO_snd_ok_iff {α : Type} {e : PyErr} {o : Option α} {a : α} :
    (liftO e o).2 = Except.ok a ↔ o = some a := by
  cases o <;> simp [liftO]

theorem wpure_snd_ok_iff {α : Type} {a b : α} :
    (wpure a).2 = Except.ok b ↔ b = a := by
  simp [wpure, eq_comm]

theorem getD_map_lt {α β : Type} (f : α → β) (l : List α) (i : ℕ) (dα : α) (dβ : β)
    (h : i < l.length) : (l.map f).getD i dβ = f (l.getD i dα) := by
  rw [List.getD_eq_getElem _ _ (by simpa using h), List.getElem_map,
    List.getD_eq_getElem _ _ h]

theorem plotContour_ok_elim {ph : List (List (List ℚ))} {mark : Option (List ℚ)}
    {dsOpt : Option Designer} {mesherOpt : Option Mesher} {np : Option ℕ} {x y : ℤ}
    {bp : Option (List ℚ)} {o : ContourOutput}
    (h : (plotContour ph mark dsOpt mesherOpt np x y bp).2 = Except.ok o) :
    ∃ fi fr kx ky, ph.head? = some fi ∧ fi.head? = some fr ∧
      pyIdx fr.length x = some kx ∧ pyIdx fr.length y = some ky ∧
      o.frames = List.range ph.length ∧
      o.frameData = ph.map (fun it => it.map (fun row => [row.getD kx 0, row.getD ky 0])) ∧
      pyGet (dsOpt.getD defaultContourDesigner).label x = some o.xlabel ∧
      pyGet (dsOpt.getD defaultContourDesigner).label y = some o.ylabel ∧
      pyGet (dsOpt.getD defaultContourDesigner).limits x = some o.xlim ∧
      pyGet (dsOpt.getD defaultContourDesigner).limits y = some o.ylim := by
  unfold plotContour at h
  obtain ⟨fi, hfi, h⟩ := wbind_snd_ok_exists h
  rw [liftO_snd_ok_iff] at hfi
  obtain ⟨fr, hfr, h⟩ := wbind_snd_ok_exists h
  rw [liftO_snd_ok_iff] at hfr
  obtain ⟨u1, _, h⟩ := wbind_snd_ok_exists h
  obtain ⟨u2, _, h⟩ := wbind_snd_ok_exists h
  obtain ⟨u3, _, h⟩ := wbind_snd_ok_exists h
  obtain ⟨u4, _, h⟩ := wbind_snd_ok_exists h
  obtain ⟨u5, _, h⟩ := wbind_snd_ok_exists h
  obtain ⟨u6, _, h⟩ := wbind_snd_ok_exists h
  obtain ⟨xlabel, hxl, h⟩ := wbind_snd_ok_exists h
  rw [liftO_snd_ok_iff] at hxl
  obtain ⟨ylabel, hyl, h⟩ := wbind_snd_ok_exists h
  rw [liftO_snd_ok_iff] at hyl
  obtain ⟨xlim, hxm, h⟩ := wbind_snd_ok_exists h
  rw [liftO_snd_ok_iff] at hxm
  obtain ⟨ylim, hym, h⟩ := wbind_snd_ok_exists h
  rw [liftO_snd_ok_iff] at hym
  obtain ⟨contourData, _, h⟩ := wbind_snd_ok_exists h
  obtain ⟨markPt, _, h⟩ := wbind_snd_ok_exists h
  obtain ⟨kx, hkx, h⟩ := wbind_snd_ok_exists h
  rw [liftO_snd_ok_iff] at hkx
  obtain ⟨ky, hky, h⟩ := wbind_snd_ok_exists h
  rw [liftO_snd_ok_iff] at hky
  rw [wpure_snd_ok_iff] at h
  subst h
  exact ⟨fi, fr, kx, ky, hfi, hfr, hkx, hky, rfl, rfl, hxl ▸ rfl, hyl ▸ rfl, hxm ▸ rfl, hym ▸ rfl⟩

theorem plotSurface_ok_elim {ph : List (List (List ℚ))} {mark : Option (List ℚ)}
    {dsOpt : Option Designer} {mesherOpt : Option Mesher} {np : Option ℕ} {x y : ℤ}
    {bp : Option (List ℚ)} {o : SurfaceOutput}
    (h : (plotSurface ph mark dsOpt mesherOpt np x y bp).2 = Except.ok o) :
    ∃ fi fr kx ky kz, ph.head? = some fi ∧ fi.head? = some fr ∧
      pyIdx fr.length x = some kx ∧ pyIdx fr.length y = some ky ∧
      pyIdx fr.length ((fr.length : ℤ) - 1) = some kz ∧
      o.frames = List.range ph.length ∧
      o.frameData = ph.map (fun it =>
        it.map (fun row => [row.getD kx 0, row.getD ky 0, row.getD kz 0])) ∧
      pyGet (dsOpt.getD defaultSurfaceDesigner).label x = some o.xlabel ∧
      pyGet (dsOpt.getD defaultSurfaceDesigner).label y = some o.ylabel ∧
      pyGet (dsOpt.getD defaultSurfaceDesigner).label ((fr.length : ℤ) - 1) = some o.zlabel ∧
      pyGet (dsOpt.getD defaultSurfaceDesigner).limits x = some o.xlim ∧
      pyGet (dsOpt.getD defaultSurfaceDesigner).limits y = some o.ylim ∧
      pyGet (dsOpt.getD defaultSurfaceDesigner).limits ((fr.length : ℤ) - 1) = some o.zlim := by
  unfold plotSurface at h
  obtain ⟨fi, hfi, h⟩ := wbind_snd_ok_exists h
  rw [liftO_snd_ok_iff] at hfi
  obtain ⟨fr, hfr, h⟩ := wbind_snd_ok_exists h
  rw [liftO_snd_ok_iff] at hfr
  obtain ⟨u1, _, h⟩ := wbind_snd_ok_exists h
  obtain ⟨u2, _, h⟩ := wbind_snd_ok_exists h
  obtain ⟨u3, _, h⟩ := wbind_snd_ok_exists h
  obtain ⟨u4, _, h⟩ := wbind_snd_ok_exists h
  obtain ⟨u5, _, h⟩ := wbind_snd_ok_exists h
  obtain ⟨u6, _, h⟩ := wbind_snd_ok_exists h
  obtain ⟨xlabel, hxl, h⟩ := wbind_snd_ok_exists h
  rw [liftO_snd_ok_iff] at hxl
  obtain ⟨ylabel, hyl, h⟩ := wbind_snd_ok_exists h
  rw [liftO_snd_ok_iff] at hyl
  obtain ⟨zlabel, hzl, h⟩ := wbind_snd_ok_exists h
  rw [liftO_snd_ok_iff] at hzl
  obtain ⟨xlim, hxm, h⟩ := wbind_snd_ok_exists h
  rw [liftO_snd_ok_iff] at hxm
  obtain ⟨ylim, hym, h⟩ := wbind_snd_ok_exists h
  rw [liftO_snd_ok_iff] at hym
  obtain ⟨zlim, hzm, h⟩ := wbind_snd_ok_exists h
  rw [liftO_snd_ok_iff] at hzm
  obtain ⟨surfaceData, _, h⟩ := wbind_snd_ok_exists h
  obtain ⟨markPt, _, h⟩ := wbind_snd_ok_exists h
  obtain ⟨kx, hkx, h⟩ := wbind_snd_ok_exists h
  rw [liftO_snd_ok_iff] at hkx
  obtain ⟨ky, hky, h⟩ := wbind_snd_ok_exists h
  rw [liftO_snd_ok_iff] at hky
  obtain ⟨kz, hkz, h⟩ := wbind_snd_ok_exists h
  rw [liftO_snd_ok_iff] at hkz
  rw [wpure_snd_ok_iff] at h
  subst h
  exact ⟨fi, fr, kx, ky, kz, hfi, hfr, hkx, hky, hkz, rfl, rfl,
    hxl ▸ rfl, hyl ▸ rfl, hzl ▸ rfl, hxm ▸ rfl, hym ▸ rfl, hzm ▸ rfl⟩

theorem headD_of_head? {α : Type} {l : List α} {a : α} (h : l.head? = some a) (d : α) :
    l.headD d = a := by
  rcases l with _ | ⟨b, t⟩
  · simp at h
  · simp at h
    simp [h]

/-- Claim C5: `plot_contour` and `plot_surface` build their animation over
the frame indices `range(n_iters)` in order, and the `_animate` helper for
frame `i` displays the particle positions of iteration `i`: the history
sliced to the columns `[x, y]` (contour) or `[x, y, shape[1] - 1]`
(surface). -/
theorem animate_by_iteration (ph1 ph2 : List (List (List ℚ))) (mark : Option (List ℚ))
    (dsOpt : Option Designer) (mesherOpt : Option Mesher) (np : Option ℕ) (x y : ℤ)
    (bp : Option (List ℚ)) (kx1 ky1 kx2 ky2 kz2 : ℕ) :
    (∀ o : ContourOutput, (plotContour ph1 mark dsOpt mesherOpt np x y bp).2 = Except.ok o →
      pyIdx ((ph1.headD []).headD []).length x = some kx1 →
      pyIdx ((ph1.headD []).headD []).length y = some ky1 →
      o.frames = List.range ph1.length ∧
      ∀ i, i < ph1.length →
        _animate i o.frameData =
          (ph1.getD i []).map (fun row => [row.getD kx1 0, row.getD ky1 0])) ∧
    (∀ o : SurfaceOutput, (plotSurface ph2 mark dsOpt mesherOpt np x y bp).2 = Except.ok o →
      pyIdx ((ph2.headD []).headD []).length x = some kx2 →
      pyIdx ((ph2.headD []).headD []).length y = some ky2 →
      pyIdx ((ph2.headD []).headD []).length ((((ph2.headD []).headD []).length : ℤ) - 1) = some kz2 →
      o.frames = List.range ph2.length ∧
      ∀ i, i < ph2.length →
        _animate i o.frameData =
          (ph2.getD i []).map (fun row => [row.getD kx2 0, row.getD ky2 0, row.getD kz2 0])) := by
  constructor
  · intro o h hkx hky
    obtain ⟨fi, fr, kx, ky, hfi, hfr, hkx2, hky2, hframes, hdata, _⟩ := plotContour_ok_elim h
    rw [headD_of_head? hfi, headD_of_head? hfr] at hkx hky
    rw [hkx2] at hkx
    rw [hky2] at hky
    obtain rfl : kx = kx1 := by injection hkx
    obtain rfl : ky = ky1 := by injection hky
    refine ⟨hframes, ?_⟩
    intro i hi
    unfold _animate
    rw [hdata, getD_map_lt _ _ _ [] _ hi]
  · intro o h hkx hky hkz
    obtain ⟨fi, fr, kx, ky, kz, hfi, hfr, hkx2, hky2, hkz2, hframes, hdata, _⟩ := plotSurface_ok_elim h
    rw [headD_of_head? hfi, headD_of_head? hfr] at hkx hky hkz
    rw [hkx2] at hkx
    rw [hky2] at hky
    rw [hkz2] at hkz
    obtain rfl : kx = kx2 := by injection hkx
    obtain rfl : ky = ky2 := by injection hky
    obtain rfl : kz = kz2 := by injection hkz
    refine ⟨hframes, ?_⟩
    intro i hi
    unfold _animate
    rw [hdata, getD_map_lt _ _ _ [] _ hi]

/-- Witness for C5 at concrete one-iteration histories. -/
theorem animate_by_iteration_witness :
    ((plotContour [[[1, 2]]] none none none none 0 1 none).2 = Except.ok cOutWit ∧
     pyIdx 2 0 = some 0 ∧ pyIdx 2 1 = some 1 ∧
     (cOutWit.frames = List.range 1 ∧ ∀ i, i < 1 →
       _animate i cOutWit.frameData =
         (([[[(1 : ℚ), 2]]].getD i []).map (fun row => [row.getD 0 0, row.getD 1 0])))) ∧
    ((plotSurface [[[1, 2, 3]]] none none none none 0 1 none).2 = Except.ok sOutWit ∧
     pyIdx 3 0 = some 0 ∧ pyIdx 3 1 = some 1 ∧ pyIdx 3 2 = some 2 ∧
     (sOutWit.frames = List.range 1 ∧ ∀ i, i < 1 →
       _animate i sOutWit.frameData =
         (([[[(1 : ℚ), 2, 3]]].getD i []).map
           (fun row => [row.getD 0 0, row.getD 1 0, row.getD 2 0])))) :=
  ⟨⟨rfl, by decide, by decide,
    (animate_by_iteration [[[1, 2]]] [[[1, 2, 3]]] none none none none 0 1 none
        0 1 0 1 2).1 cOutWit rfl (by decide) (by decide)⟩,
   ⟨rfl, by decide, by decide, by decide,
    (animate_by_iteration [[[1, 2]]] [[[1, 2, 3]]] none none none none 0 1 none
        0 1 0 1 2).2 sOutWit rfl (by decide) (by decide) (by decide)⟩⟩

theorem pyGet_some_of_lt {α : Type} (l : List α) (i : ℤ) (h0 : 0 ≤ i)
    (h : i < (l.length : ℤ)) : ∃ v, pyGet l i = some v := by
  unfold pyGet
  rw [pyIdx_of_nonneg_lt _ _ h0 h]
  have hlt : i.toNat < l.length := by omega
  exact ⟨l.get ⟨i.toNat, hlt⟩, by simp [List.get?_eq_get hlt]⟩

theorem contour_ok_of_valid (ph : List (List (List ℚ))) (dsOpt : Option Designer)
    (np : Option ℕ) (x y : ℤ) (bp : Option (List ℚ)) (fi : List (List ℚ)) (fr : List ℚ)
    (hph : ph.head? = some fi) (hfr : fi.head? = some fr)
    (hdlab : (dsOpt.getD defaultContourDesigner).label.length = fr.length)
    (hdlim : (dsOpt.getD defaultContourDesigner).limits.length = fr.length)
    (h0x : 0 ≤ x) (hxlt : x < (fr.length : ℤ)) (h0y : 0 ≤ y) (hylt : y < (fr.length : ℤ)) :
    ∃ o, (plotContour ph none dsOpt none np x y bp).2 = Except.ok o ∧
      pyGet (dsOpt.getD defaultContourDesigner).label x = some o.xlabel ∧
      pyGet (dsOpt.getD defaultContourDesigner).label y = some o.ylabel ∧
      pyGet (dsOpt.getD defaultContourDesigner).limits x = some o.xlim ∧
      pyGet (dsOpt.getD defaultContourDesigner).limits y = some o.ylim := by
  obtain ⟨vlx, hvlx⟩ := pyGet_some_of_lt (dsOpt.getD defaultContourDesigner).label x h0x (by omega)
  obtain ⟨vly, hvly⟩ := pyGet_some_of_lt (dsOpt.getD defaultContourDesigner).label y h0y (by omega)
  obtain ⟨vmx, hvmx⟩ := pyGet_some_of_lt (dsOpt.getD defaultContourDesigner).limits x h0x (by omega)
  obtain ⟨vmy, hvmy⟩ := pyGet_some_of_lt (dsOpt.getD defaultContourDesigner).limits y h0y (by omega)
  unfold plotContour
  simp only [hph, hfr, liftO_some, wbind_ok, List.nil_append, warnIf,
    hvlx, hvly, hvmx, hvmy, wpure,
    pyIdx_of_nonneg_lt fr.length x h0x hxlt,
    pyIdx_of_nonneg_lt fr.length y h0y hylt]
  exact ⟨_, rfl, rfl, rfl, rfl, rfl⟩

theorem surface_ok_of_valid (ph : List (List (List ℚ))) (dsOpt : Option Designer)
    (np : Option ℕ) (x y : ℤ) (bp : Option (List ℚ)) (fi : List (List ℚ)) (fr : List ℚ)
    (hph : ph.head? = some fi) (hfr : fi.head? = some fr)
    (hdlab : ((dsOpt.getD defaultSurfaceDesigner).label.length : ℤ) = (fr.length : ℤ))
    (hdlim : ((dsOpt.getD defaultSurfaceDesigner).limits.length : ℤ) = (fr.length : ℤ))
    (h0x : 0 ≤ x) (hxlt : x < (fr.length : ℤ) - 1)
    (h0y : 0 ≤ y) (hylt : y < (fr.length : ℤ) - 1) :
    ∃ o, (plotSurface ph none dsOpt none np x y bp).2 = Except.ok o ∧
      pyGet (dsOpt.getD defaultSurfaceDesigner).label x = some o.xlabel ∧
      pyGet (dsOpt.getD defaultSurfaceDesigner).label y = some o.ylabel ∧
      pyGet (dsOpt.getD defaultSurfaceDesigner).label ((fr.length : ℤ) - 1) = some o.zlabel ∧
      pyGet (dsOpt.getD defaultSurfaceDesigner).limits x = some o.xlim ∧
      pyGet (dsOpt.getD defaultSurfaceDesigner).limits y = some o.ylim ∧
      pyGet (dsOpt.getD defaultSurfaceDesigner).limits ((fr.length : ℤ) - 1) = some o.zlim := by
  have hfr1 : (1 : ℤ) ≤ (fr.length : ℤ) := by omega
  obtain ⟨vlx, hvlx⟩ := pyGet_some_of_lt (dsOpt.getD defaultSurfaceDesigner).label x h0x (by omega)
  obtain ⟨vly, hvly⟩ := pyGet_some_of_lt (dsOpt.getD defaultSurfaceDesigner).label y h0y (by omega)
  obtain ⟨vlz, hvlz⟩ := pyGet_some_of_lt (dsOpt.getD defaultSurfaceDesigner).label
    ((fr.length : ℤ) - 1) (by omega) (by omega)
  obtain ⟨vmx, hvmx⟩ := pyGet_some_of_lt (dsOpt.getD defaultSurfaceDesigner).limits x h0x (by omega)
  obtain ⟨vmy, hvmy⟩ := pyGet_some_of_lt (dsOpt.getD defaultSurfaceDesigner).limits y h0y (by omega)
  obtain ⟨vmz, hvmz⟩ := pyGet_some_of_lt (dsOpt.getD defaultSurfaceDesigner).limits
    ((fr.length : ℤ) - 1) (by omega) (by omega)
  unfold plotSurface
  simp only [hph, hfr, liftO_some, wbind_ok, List.nil_append, warnIf,
    hvlx, hvly, hvlz, hvmx, hvmy, hvmz, wpure,
    pyIdx_of_nonneg_lt fr.length x h0x (by omega),
    pyIdx_of_nonneg_lt fr.length y h0y (by omega),
    pyIdx_of_nonneg_lt fr.length ((fr.length : ℤ) - 1) (by omega) (by omega)]
  exact ⟨_, rfl, rfl, rfl, rfl, rfl, rfl, rfl⟩

/-- Claim C7: with in-range plotting indices and a designer whose `label`
and `limits` have the validated lengths, `plot_contour` sets the x/y axis
label and limits to `designer.label[x]` / `designer.limits[x]` and
`designer.label[y]` / `designer.limits[y]`; `plot_surface` does the same
and additionally sets the z label and limits to the entries at index
`n_dim` (the fitness column), and both calls succeed. -/
theorem axis_settings_from_designer (ph1 ph2 : List (List (List ℚ)))
    (dsOpt : Option Designer) (np : Option ℕ) (x y : ℤ) (bp : Option (List ℚ))
    (fi1 fi2 : List (List ℚ)) (fr1 fr2 : List ℚ) :
    (ph1.head? = some fi1 → fi1.head? = some fr1 →
      (dsOpt.getD defaultContourDesigner).label.length = fr1.length →
      (dsOpt.getD defaultContourDesigner).limits.length = fr1.length →
      0 ≤ x → x < (fr1.length : ℤ) → 0 ≤ y → y < (fr1.length : ℤ) →
      ∃ o, (plotContour ph1 none dsOpt none np x y bp).2 = Except.ok o ∧
        pyGet (dsOpt.getD defaultContourDesigner).label x = some o.xlabel ∧
        pyGet (dsOpt.getD defaultContourDesigner).label y = some o.ylabel ∧
        pyGet (dsOpt.getD defaultContourDesigner).limits x = some o.xlim ∧
        pyGet (dsOpt.getD defaultContourDesigner).limits y = some o.ylim) ∧
    (ph2.head? = some fi2 → fi2.head? = some fr2 →
      ((dsOpt.getD defaultSurfaceDesigner).label.length : ℤ) = (fr2.length : ℤ) →
      ((dsOpt.getD defaultSurfaceDesigner).limits.length : ℤ) = (fr2.length : ℤ) →
      0 ≤ x → x < (fr2.length : ℤ) - 1 → 0 ≤ y → y < (fr2.length : ℤ) - 1 →
      ∃ o, (plotSurface ph2 none dsOpt none np x y bp).2 = Except.ok o ∧
        pyGet (dsOpt.getD defaultSurfaceDesigner).label x = some o.xlabel ∧
        pyGet (dsOpt.getD defaultSurfaceDesigner).label y = some o.ylabel ∧
        pyGet (dsOpt.getD defaultSurfaceDesigner).label ((fr2.length : ℤ) - 1) = some o.zlabel ∧
        pyGet (dsOpt.getD defaultSurfaceDesigner).limits x = some o.xlim ∧
        pyGet (dsOpt.getD defaultSurfaceDesigner).limits y = some o.ylim ∧
        pyGet (dsOpt.getD defaultSurfaceDesigner).limits ((fr2.length : ℤ) - 1) = some o.zlim) :=
  ⟨fun h1 h2 h3 h4 h5 h6 h7 h8 =>
    contour_ok_of_valid ph1 dsOpt np x y bp fi1 fr1 h1 h2 h3 h4 h5 h6 h7 h8,
   fun h1 h2 h3 h4 h5 h6 h7 h8 =>
    surface_ok_of_valid ph2 dsOpt np x y bp fi2 fr2 h1 h2 h3 h4 h5 h6 h7 h8⟩

/-- Witness for C7 at concrete calls with the default designers. -/
theorem axis_settings_from_designer_witness :
    ([[[(1 : ℚ), 2]]].head? = some [[(1 : ℚ), 2]] ∧ [[(1 : ℚ), 2]].head? = some [(1 : ℚ), 2] ∧
     defaultContourDesigner.label.length = 2 ∧ defaultContourDesigner.limits.length = 2 ∧
     (∃ o, (plotContour [[[1, 2]]] none none none none 0 1 none).2 = Except.ok o ∧
       pyGet defaultContourDesigner.label 0 = some o.xlabel ∧
       pyGet defaultContourDesigner.label 1 = some o.ylabel ∧
       pyGet defaultContourDesigner.limits 0 = some o.xlim ∧
       pyGet defaultContourDesigner.limits 1 = some o.ylim)) ∧
    ([[[(1 : ℚ), 2, 3]]].head? = some [[(1 : ℚ), 2, 3]] ∧
     [[(1 : ℚ), 2, 3]].head? = some [(1 : ℚ), 2, 3] ∧
     defaultSurfaceDesigner.label.length = 3 ∧ defaultSurfaceDesigner.limits.length = 3 ∧
     (∃ o, (plotSurface [[[1, 2, 3]]] none none none none 0 1 none).2 = Except.ok o ∧
       pyGet defaultSurfaceDesigner.label 0 = some o.xlabel ∧
       pyGet defaultSurfaceDesigner.label 1 = some o.ylabel ∧
       pyGet defaultSurfaceDesigner.label 2 = some o.zlabel ∧
       pyGet defaultSurfaceDesigner.limits 0 = some o.xlim ∧
       pyGet defaultSurfaceDesigner.limits 1 = some o.ylim ∧
       pyGet defaultSurfaceDesigner.limits 2 = some o.zlim)) :=
  ⟨⟨rfl, rfl, rfl, rfl,
    (axis_settings_from_designer [[[1, 2]]] [[[1, 2, 3]]] none none 0 1 none
        [[(1 : ℚ), 2]] [[(1 : ℚ), 2, 3]] [(1 : ℚ), 2] [(1 : ℚ), 2, 3]).1
      rfl rfl rfl rfl (by decide) (by decide) (by decide) (by decide)⟩,
   ⟨rfl, rfl, rfl, rfl,
    (axis_settings_from_designer [[[1, 2]]] [[[1, 2, 3]]] none none 0 1 none
        [[(1 : ℚ), 2]] [[(1 : ℚ), 2, 3]] [(1 : ℚ), 2] [(1 : ℚ), 2, 3]).2
      rfl rfl rfl rfl (by decide) (by decide) (by decide) (by decide)⟩⟩

theorem slice_eq_of_agree (ph1 ph2 : List (List (List ℚ))) (kx ky : ℕ)
    (hlen : ph1.length = ph2.length)
    (hplen : ∀ i, i < ph1.length → (ph1.getD i []).length = (ph2.getD i []).length)
    (hagree : ∀ i, i < ph1.length → ∀ p, p < (ph1.getD i []).length →
      ((ph1.getD i []).getD p []).getD kx 0 = ((ph2.getD i []).getD p []).getD kx 0 ∧
      ((ph1.getD i []).getD p []).getD ky 0 = ((ph2.getD i []).getD p []).getD ky 0) :
    ph1.map (fun it => it.map (fun row => [row.getD kx 0, row.getD ky 0])) =
      ph2.map (fun it => it.map (fun row => [row.getD kx 0, row.getD ky 0])) := by
  apply List.ext_getElem (by simp [hlen])
  intro n h1 h2
  simp only [List.getElem_map]
  have hn1 : n < ph1.length := by simpa using h1
  have hn2 : n < ph2.length := by simpa using h2
  have hpl : (ph1[n]).length = (ph2[n]).length := by
    have := hplen n hn1
    rwa [List.getD_eq_getElem _ _ hn1, List.getD_eq_getElem _ _ hn2] at this
  apply List.ext_getElem (by simpa using hpl)
  intro p hp1 hp2
  simp only [List.getElem_map]
  have hpp1 : p < (ph1[n]).length := by simpa using hp1
  have hpp2 : p < (ph2[n]).length := by simpa using hp2
  have := hagree n hn1 p (by
    rwa [List.getD_eq_getElem _ _ hn1])
  rw [List.getD_eq_getElem _ _ hn1, List.getD_eq_getElem _ _ hn2,
    List.getD_eq_getElem _ _ hpp1, List.getD_eq_getElem _ _ hpp2] at this
  rw [this.1, this.2]

theorem wbind_okP {α β : Type} (w : List String) (a : α) (k : α → WE β) :
    wbind (w, Except.ok a) k = prepend w (k a) := rfl

theorem prepend_snd {α : Type} (w : List String) (q : WE α) :
    (prepend w q).2 = q.2 := rfl

theorem wbind_congr {α β : Type} (p : WE α) (k1 k2 : α → WE β)
    (h : ∀ a, k1 a = k2 a) : wbind p k1 = wbind p k2 := by
  rcases p with ⟨w, pe⟩
  rcases pe with e | a
  · rfl
  · simp [wbind, h a]

/-- Claim C9 (two-run noninterference): two position histories of the same
shape that agree on the columns selected by `x` and `y` (under numpy index
resolution) produce identical `plot_contour` results when `mesher = None`
-- the same warnings, and the same animation frames and frame data --
because the history is sliced to exactly the columns `[x, y]` before the
animation is built. -/
theorem contour_noninterference (ph1 ph2 : List (List (List ℚ))) (mark : Option (List ℚ))
    (dsOpt : Option Designer) (np : Option ℕ) (x y : ℤ) (bp : Option (List ℚ))
    (hlen : ph1.length = ph2.length)
    (hplen : ∀ i, i < ph1.length → (ph1.getD i []).length = (ph2.getD i []).length)
    (hrowlen : ∀ i, i < ph1.length → ∀ p, p < (ph1.getD i []).length →
      ((ph1.getD i []).getD p []).length = ((ph2.getD i []).getD p []).length)
    (hagree : ∀ k, (pyIdx ((ph1.headD []).headD []).length x = some k ∨
        pyIdx ((ph1.headD []).headD []).length y = some k) →
      ∀ i, i < ph1.length → ∀ p, p < (ph1.getD i []).length →
        ((ph1.getD i []).getD p []).getD k 0 = ((ph2.getD i []).getD p []).getD k 0) :
    plotContour ph1 mark dsOpt none np x y bp = plotContour ph2 mark dsOpt none np x y bp := by
  rcases ph1 with _ | ⟨fi1, t1⟩
  · rcases ph2 with _ | ⟨fi2, t2⟩
    · rfl
    · simp at hlen
  rcases ph2 with _ | ⟨fi2, t2⟩
  · simp at hlen
  rcases fi1 with _ | ⟨fr1, p1⟩ <;> rcases fi2 with _ | ⟨fr2, p2⟩
  · unfold plotContour
    simp only [List.head?_cons, liftO_some, wbind_okP, List.head?_nil, liftO_none,
      wbind_err, prepend, List.nil_append]
  · have := hplen 0 (by simp)
    simp at this
  · have := hplen 0 (by simp)
    simp at this
  have hfr : fr1.length = fr2.length := by
    have := hrowlen 0 (by simp) 0 (by simp)
    simpa using this
  unfold plotContour
  simp only [List.head?_cons, liftO_some, wbind_okP, warnIf, List.nil_append]
  rw [hfr, hlen]
  apply congrArg (prepend _)
  apply congrArg (prepend _)
  apply congrArg (prepend _)
  apply congrArg (prepend _)
  apply congrArg (prepend _)
  apply congrArg (prepend _)
  apply congrArg (prepend _)
  apply congrArg (prepend _)
  apply wbind_congr; intro xlabel
  apply wbind_congr; intro ylabel
  apply wbind_congr; intro xlim
  apply wbind_congr; intro ylim
  apply wbind_congr; intro contourData
  apply wbind_congr; intro markPt
  rcases hkx : pyIdx fr2.length x with _ | kx
  · simp only [hkx, liftO_none, wbind_err]
  simp only [hkx, liftO_some, wbind_okP]
  apply congrArg (prepend _)
  rcases hky : pyIdx fr2.length y with _ | ky
  · simp only [hky, liftO_none, wbind_err]
  simp only [hky, liftO_some, wbind_okP]
  apply congrArg (prepend _)
  have hkx1 : pyIdx ((((fr1 :: p1) :: t1).headD []).headD []).length x = some kx := by
    simp only [List.headD_cons]
    rw [show (fr1.length) = fr2.length from hfr]
    exact hkx
  have hky1 : pyIdx ((((fr1 :: p1) :: t1).headD []).headD []).length y = some ky := by
    simp only [List.headD_cons]
    rw [show (fr1.length) = fr2.length from hfr]
    exact hky
  have hslice := slice_eq_of_agree ((fr1 :: p1) :: t1) ((fr2 :: p2) :: t2) kx ky hlen hplen
    (fun i hi p hp => ⟨hagree kx (Or.inl hkx1) i hi p hp, hagree ky (Or.inr hky1) i hi p hp⟩)
  rw [hslice]

/-- Witness for C9: two histories differing only in the hidden third
dimension give equal plots. -/
theorem contour_noninterference_witness :
    plotContour [[[(1 : ℚ), 2, 5]]] none none none none 0 1 none =
      plotContour [[[(1 : ℚ), 2, 7]]] none none none none 0 1 none :=
  contour_noninterference [[[(1 : ℚ), 2, 5]]] [[[(1 : ℚ), 2, 7]]] none none none 0 1 none
    (by decide)
    (by decide)
    (by decide)
    (by
      intro k hk i hi p hp
      have hi0 : i = 0 := by
        simp at hi
        exact hi
      subst hi0
      have hp0 : p = 0 := by
        simp at hp
        exact hp
      subst hp0
      rcases hk with hk | hk
      · have h0 : pyIdx ((([[[(1 : ℚ), 2, 5]]].headD []).headD []).length) 0 = some 0 := by decide
        rw [h0] at hk
        injection hk with hk2
        subst hk2
        decide
      · have h0 : pyIdx ((([[[(1 : ℚ), 2, 5]]].headD []).headD []).length) 1 = some 1 := by decide
        rw [h0] at hk
        injection hk with hk2
        subst hk2
        decide)

theorem arange_nat (n : ℕ) : arange 0 (n : ℚ) 1 = (List.range n).map (Nat.cast : ℕ → ℚ) := by
  have hlen : arangeLen 0 (n : ℚ) 1 = n := by
    unfold arangeLen
    rw [if_neg (by norm_num)]
    norm_num
  unfold arange
  rw [hlen]
  apply List.map_congr_left
  intro i _
  norm_num

/-- Claim C6: for a non-empty `cost_history` (and a designer with both
axis labels, as the default has), `plot_cost_history` plots the point
`(i, cost_history[i])` for every iteration index `i` in `0 .. iters-1`
(matplotlib pairs `np.arange(iters)` with `cost_history` pointwise) and
returns the axes passed in, or the freshly created axes when `ax` is
`None`. -/
theorem cost_history_plot (cost_history : List ℚ) (ax : Option ℕ)
    (dsOpt : Option Designer) (freshAx : ℕ)
    (hlab : 2 ≤ (dsOpt.getD defaultCostDesigner).label.length)
    (hne : 0 < cost_history.length) :
    ∃ o, plotCostHistory cost_history ax dsOpt freshAx = Except.ok o ∧
      o.points.length = cost_history.length ∧
      (∀ i, i < cost_history.length →
        o.points.getD i (0, 0) = ((i : ℚ), cost_history.getD i 0)) ∧
      o.ax = (match ax with
        | none => freshAx
        | some a => a) := by
  obtain ⟨v0, hv0⟩ := pyGet_some_of_lt (dsOpt.getD defaultCostDesigner).label 0 (by omega) (by omega)
  obtain ⟨v1, hv1⟩ := pyGet_some_of_lt (dsOpt.getD defaultCostDesigner).label 1 (by omega) (by omega)
  unfold plotCostHistory
  simp only [hv0, hv1, bind, Except.bind]
  have hzlen : ((arange 0 (cost_history.length : ℚ) 1).zip cost_history).length =
      cost_history.length := by
    rw [arange_nat]
    simp only [List.length_zip, List.length_map, List.length_range, min_self]
  refine ⟨_, rfl, hzlen, ?_, rfl⟩
  intro i hi
  have hb : i < ((arange 0 (cost_history.length : ℚ) 1).zip cost_history).length := by
    omega
  rw [List.getD_eq_getElem _ _ hb, List.getElem_zip, List.getD_eq_getElem _ _ hi]
  have hbr : i < (arange 0 (cost_history.length : ℚ) 1).length := by
    rw [arange_nat]
    simp only [List.length_map, List.length_range]
    omega
  have hbr2 : i < ((List.range cost_history.length).map (Nat.cast : ℕ → ℚ)).length := by
    simp only [List.length_map, List.length_range]
    omega
  have hx : (arange 0 (cost_history.length : ℚ) 1)[i] = (i : ℚ) := by
    rw [show ((arange 0 (cost_history.length : ℚ) 1)[i] : ℚ) =
        ((List.range cost_history.length).map (Nat.cast : ℕ → ℚ))[i] from by
      congr 1
      exact arange_nat cost_history.length]
    rw [List.getElem_map, List.getElem_range]
  simp [hx]

/-- Witness for C6 at a concrete two-element history. -/
theorem cost_history_plot_witness :
    2 ≤ defaultCostDesigner.label.length ∧ 0 < [(3 : ℚ), 4].length ∧
    (∃ o, plotCostHistory [(3 : ℚ), 4] (some 5) none 9 = Except.ok o ∧
      o.points.length = 2 ∧
      (∀ i, i < 2 → o.points.getD i (0, 0) = ((i : ℚ), [(3 : ℚ), 4].getD i 0)) ∧
      o.ax = 5) :=
  ⟨by decide, by decide,
    cost_history_plot [(3 : ℚ), 4] (some 5) none 9 (by decide) (by decide)⟩

end PyPlotters
